import Mathlib

/-!
Verification of the home-controller repository (SSDP discovery + Belkin Wemo
SOAP control).  The Python sources `wemo_device.py`, `discover.py` and
`cli.py` are shallowly embedded: pure string/XML manipulation is translated
directly; the network boundary (UDP receive events, HTTP fetches, SOAP
round trips) is modelled by explicit outcome values passed as inputs, and
Python exceptions are modelled with `Except Unit`.  All definitions are
structurally recursive so that concrete instances evaluate in the kernel.
-/

namespace HomeController

/-- `str.lower` on one character (ASCII model of Python's case mapping);
non-ASCII-uppercase characters are unchanged. -/
def pyLowerChar (c : Char) : Char :=
  if 65 ≤ c.toNat ∧ c.toNat ≤ 90 then Char.ofNat (c.toNat + 32) else c

/-- `str.lower`, character-wise (ASCII model). -/
def pyLower (s : String) : String :=
  ⟨s.data.map pyLowerChar⟩

/-- `str.replace(a, b)` for a single-character pattern: every occurrence
of the character `a` is replaced by `b` (character-wise map). -/
def pyReplaceChar (s : String) (a b : Char) : String :=
  ⟨s.data.map (fun c => if c = a then b else c)⟩

/-- The character class of Python's `\s` / `str.strip` default (ASCII
model). -/
def pyIsSpace (c : Char) : Bool :=
  c = ' ' || c = '\t' || c = '\n' || c = '\r' || c = '\x0b' || c = '\x0c'

/-- `str.strip()`: drop leading and trailing whitespace. -/
def pyStrip (s : String) : String :=
  ⟨((s.data.dropWhile pyIsSpace).reverse.dropWhile pyIsSpace).reverse⟩

/-- `s.startswith(pre)` on the character lists. -/
def pyStartsWith (s pre : String) : Bool :=
  pre.data.isPrefixOf s.data

/-- `s.takeWhile`, on the character list (String.takeWhile does not
reduce in the kernel). -/
def pyTakeWhile (p : Char → Bool) (s : String) : String :=
  ⟨s.data.takeWhile p⟩

/-- `s[n:]` (character index, like Python slicing). -/
def pyDrop (s : String) (n : Nat) : String :=
  ⟨s.data.drop n⟩

/-- `int(s, 10)` restricted to plain digit strings: `none` models the
`ValueError` raised on anything else. -/
def pyToNat? (s : String) : Option Nat :=
  if s.data ≠ [] ∧ s.data.all Char.isDigit then
    some (s.data.foldl (fun n c => n * 10 + (c.toNat - 48)) 0)
  else none

/-- `str.split(sep)` for a nonempty separator, scanning left to right and
skipping past each match; fuel-based structural recursion so concrete
instances evaluate in the kernel (the initial fuel `l.length + 1` always
suffices). -/
def splitCharsGo (sep : List Char) : Nat → List Char → List Char → List (List Char)
  | 0, l, acc => [(acc.reverse ++ l)]
  | fuel + 1, l, acc =>
      match l with
      | [] => [acc.reverse]
      | c :: rest =>
          if sep.isPrefixOf (c :: rest) && sep.length ≠ 0 then
            acc.reverse :: splitCharsGo sep fuel ((c :: rest).drop sep.length) []
          else
            splitCharsGo sep fuel rest (c :: acc)

/-- `str.split(sep)` (nonempty separator) on Lean strings. -/
def pySplit (s sep : String) : List String :=
  (splitCharsGo sep.data (s.data.length + 1) s.data []).map (fun l => ⟨l⟩)

/-- `re.sub(r'\x7b.*?\x7d', "", s)` on the character list: each
non-greedy match runs from a `\x7b` to the nearest following `\x7d`; an
opening brace with no closing brace left is kept verbatim.  Fuel-based
structural recursion (each step consumes at least one character, so
`l.length + 1` fuel always suffices) so concrete instances evaluate in
the kernel. -/
def stripBracesGo : Nat → List Char → List Char
  | 0, l => l
  | fuel + 1, l =>
      match l with
      | [] => []
      | c :: rest =>
          if c = '\x7b' && rest.contains '\x7d' then
            stripBracesGo fuel ((rest.dropWhile (fun x => x ≠ '\x7d')).drop 1)
          else
            c :: stripBracesGo fuel rest

/-- `re.sub(r'\x7b.*?\x7d', "", s)` on the character list. -/
def stripBracesAux (l : List Char) : List Char :=
  stripBracesGo (l.length + 1) l

/-- A parsed XML element as produced by `xml.etree.ElementTree`: a tag
(namespace-qualified tags keep their braced URI inside the tag string,
written here with `\x7b`/`\x7d` escapes), an optional text node, and the
list of child elements in document order. -/
inductive XmlElem where
  | node (tg : String) (txt : Option String) (children : List XmlElem)

def XmlElem.tag : XmlElem → String
  | .node t _ _ => t

def XmlElem.text : XmlElem → Option String
  | .node _ t _ => t

def XmlElem.children : XmlElem → List XmlElem
  | .node _ _ c => c

/-- The body of an HTTP response, as seen by `ElementTree.fromstring`:
either it fails to parse or it yields a root element.  This models the
raw bytes at the parse boundary by their parse outcome. -/
inductive RawXml where
  | malformed
  | wellFormed (root : XmlElem)

/-- Outcome of one `urllib.request.urlopen` call: the request raises
(URLError, timeout, connection failure, HTTP error status) or returns a
body. -/
inductive HttpResult where
  | failure
  | success (body : RawXml)

/-- `ElementTree.find` for a plain child-tag path `a/b/c` (the path is
already tokenized into segments; ElementTree's tokenizer treats a braced
namespace as part of a segment, so a slash inside `\x7b...\x7d` does not
split).  It returns the first element in document order reached by
descending through children matching each successive tag. -/
def XmlElem.find (root : XmlElem) (path : List String) : Option XmlElem :=
  (path.foldl (fun acc tg => acc.flatMap (fun e => e.children.filter (fun c => c.tag = tg))) [root]).head?

namespace Wemo

def STATE_ON : String := "ON"
def STATE_OFF : String := "OFF"
def STATE_UNKNOWN : String := "UNKNOWN"

def DEVICE_NODE_TAG : String := "device"
def SERVICE_LIST_NODE_TAG : String := "serviceList"
def SERVICES_TAG : String := "services"

def DATA_DICT_NAME_KEY : String := "friendlyName"
def DEVICE_UNKNOWN : String := "Unknown Device"
def ACTION_GET : String := "\"urn:Belkin:service:basicevent:1#GetBinaryState\""
def ACTION_SET : String := "\"urn:Belkin:service:basicevent:1#SetBinaryState\""

def CONTROL_URI_PATH : String := "upnp/control/basicevent1"

def GET_BINARY_STATE_SOAP_REQUEST : String :=
  "\n<?xml version=\"1.0\" encoding=\"utf-8\"?>\n<soap:Envelope xmlns:soap=\"http://schemas.xmlsoap.org/soap/envelope/\"\n     soap:encodingStyle=\"http://schemas.xmlsoap.org/soap/encoding/\">\n    <soap:Body>\n        <wemo:GetBinaryState xmlns:wemo=\"urn:Belkin:service:basicevent:1\">\n        </wemo:GetBinaryState>\n    </soap:Body>\n</soap:Envelope>\n"

def SET_BINARY_STATE_SOAP_REQUEST_TEMPLATE : String :=
  "\n<?xml version=\"1.0\" encoding=\"utf-8\"?>\n<soap:Envelope xmlns:soap=\"http://schemas.xmlsoap.org/soap/envelope/\"\n     soap:encodingStyle=\"http://schemas.xmlsoap.org/soap/encoding/\">\n    <soap:Body>\n        <wemo:SetBinaryState xmlns:wemo=\"urn:Belkin:service:basicevent:1\">\n            <BinaryState>$\x7bSTATE\x7d</BinaryState>\n        </wemo:SetBinaryState>\n    </soap:Body>\n</soap:Envelope>\n"

def RESPONSE_BODY_PATH : String := "\x7bhttp://schemas.xmlsoap.org/soap/envelope/\x7dBody"
def WEMO_GET_STATE_PATH : String := "\x7burn:Belkin:service:basicevent:1\x7dGetBinaryStateResponse"
def WEMO_SET_STATE_PATH : String := "\x7burn:Belkin:service:basicevent:1\x7dSetBinaryStateResponse"

/-- `string.Template.safe_substitute` for this template's single
placeholder: every occurrence of the literal `$\x7bSTATE\x7d` is replaced
by the value (replace-all expressed as split/join). -/
def safeSubstitute (tmpl : String) (value : String) : String :=
  String.intercalate value (pySplit tmpl "$\x7bSTATE\x7d")

/-- `_parse_xml`: `ElementTree.fromstring` wrapped so that a parse error
is logged and `None` returned. -/
def _parse_xml (data : RawXml) : Option XmlElem :=
  match data with
  | .malformed => none
  | .wellFormed root => some root

/-- One SOAP POST issued by `_wemo_soap_request`: target uri, SOAPACTION
header value, request body. -/
structure SoapReq where
  uri : String
  action : String
  body : String
deriving DecidableEq

/-- `_wemo_soap_request`: sends one POST (recorded in the second
component) and returns `_parse_xml` of the body; an exception from
`urlopen` propagates (`.error`). -/
def _wemo_soap_request (uri : String) (action : String) (data : String)
    (wire : HttpResult) : Except Unit (Option XmlElem) × List SoapReq :=
  (match wire with
   | .failure => .error ()
   | .success raw => .ok (_parse_xml raw),
   [⟨uri, action, data⟩])

/-- The xpath segments of
`RESPONSE_BODY_PATH/WEMO_GET_STATE_PATH/BinaryState`. -/
def GET_STATE_XPATH : List String := [RESPONSE_BODY_PATH, WEMO_GET_STATE_PATH, "BinaryState"]

/-- The xpath segments of
`RESPONSE_BODY_PATH/WEMO_SET_STATE_PATH/BinaryState`. -/
def SET_STATE_XPATH : List String := [RESPONSE_BODY_PATH, WEMO_SET_STATE_PATH, "BinaryState"]

/-- `_get_device_state`: send the GetBinaryState SOAP request; `None` when
the response failed to parse or the `BinaryState` element is missing,
otherwise the element's text; an exception from the request propagates. -/
def _get_device_state (uri : String) (wire : HttpResult) :
    Except Unit (Option String) × List SoapReq :=
  let z := _wemo_soap_request uri ACTION_GET GET_BINARY_STATE_SOAP_REQUEST wire
  (match z.1 with
   | .error e => .error e
   | .ok none => .ok none
   | .ok (some root) => .ok ((root.find GET_STATE_XPATH).bind XmlElem.text),
   z.2)

/-- `_set_device_state`: substitute `1`/`0` into the SetBinaryState
template, send it, and extract the `BinaryState` text of the
SetBinaryStateResponse the same way (`None` on parse failure or missing
element; an exception from the request propagates). -/
def _set_device_state (uri : String) (state : Bool) (wire : HttpResult) :
    Except Unit (Option String) × List SoapReq :=
  let data := safeSubstitute SET_BINARY_STATE_SOAP_REQUEST_TEMPLATE (if state then "1" else "0")
  let z := _wemo_soap_request uri ACTION_SET data wire
  (match z.1 with
   | .error e => .error e
   | .ok none => .ok none
   | .ok (some root) => .ok ((root.find SET_STATE_XPATH).bind XmlElem.text),
   z.2)

/-- `_tag` (wemo_device.py): strip namespace braces from an element tag. -/
def _tag (element : XmlElem) : String :=
  ⟨stripBracesAux element.tag.data⟩

/-- A value stored in a device's `_data` dict: every child of the
`device` element maps its local tag to its text, except `serviceList`,
which is stored under `services` as a list of per-service dicts. -/
inductive DevValue where
  | txt (t : Option String)
  | svcs (l : List (List (String × Option String)))
deriving DecidableEq

/-- Python `dict` assignment `d[k] = v`: replace the value at an existing
key in place or append a fresh binding. -/
def dictSet {α : Type} : List (String × α) → String → α → List (String × α)
  | [], k, v => [(k, v)]
  | (k', v') :: rest, k, v =>
      if k' = k then (k, v) :: rest else (k', v') :: dictSet rest k v

/-- Python `dict` lookup `d.get(k)`: the binding for `k`, if any (keys
are unique under `dictSet`, so the first match is the binding). -/
def dictGet? {α : Type} : List (String × α) → String → Option α
  | [], _ => none
  | (k', v) :: rest, k => if k' = k then some v else dictGet? rest k

/-- `_get_service_info`: flatten one `service` element into a dict of
local tag to text. -/
def _get_service_info (subtree : XmlElem) : List (String × Option String) :=
  subtree.children.foldl (fun data node => dictSet data (_tag node) node.text) []

/-- `_get_device_info`: walk the immediate children of the `device`
element, storing each child's local tag to text, except `serviceList`,
whose services are each flattened under the `services` key. -/
def _get_device_info (device : XmlElem) : List (String × DevValue) :=
  device.children.foldl
    (fun info node =>
      let name := _tag node
      if name = SERVICE_LIST_NODE_TAG then
        dictSet info SERVICES_TAG (.svcs (node.children.map _get_service_info))
      else
        dictSet info name (.txt node.text))
    []

/-- `urllib.request`'s `_splittype` (regex `^([^/:]+):(.*)$`), used by
`request.Request` to find the URL type: the prefix before the first `:`
or `/`, provided it is nonempty and followed by a colon.  `Request`
raises `ValueError: unknown url type` when this yields nothing. -/
def pySplitType (s : String) : Option (String × String) :=
  let pre := pyTakeWhile (fun c => c != ':' && c != '/') s
  if pre.length ≠ 0 && pyStartsWith (pyDrop s pre.length) ":" then
    some (pre, pyDrop s (pre.length + 1))
  else
    none

/-- `urlparse` scheme split: a scheme is a leading run of
alphanumeric/`+`/`-`/`.` characters starting with a letter and followed
by `:`; it is lowercased and removed.  Returns (scheme, rest). -/
def urlSchemeSplit (url : String) : String × String :=
  let pre := pyTakeWhile (fun c => c.isAlphanum || c = '+' || c = '-' || c = '.') url
  if pre.length ≠ 0 && pre.front.isAlpha && pyStartsWith (pyDrop url pre.length) ":" then
    (pyLower pre, pyDrop url (pre.length + 1))
  else
    ("", url)

/-- `urlparse` netloc: present only when the remainder starts with `//`;
runs to the next `/`, `?` or `#` (empty string when absent). -/
def urlNetlocOf (rest : String) : String :=
  if pyStartsWith rest "//" then
    pyTakeWhile (fun c => c != '/' && c != '?' && c != '#') (pyDrop rest 2)
  else
    ""

/-- `urlparse` `_hostinfo` userinfo strip: everything after the last `@`
of the netloc (the whole netloc when there is none).  Bracketed IPv6
hosts are not modelled. -/
def hostportOf (netloc : String) : String :=
  ((pySplit netloc "@").getLast?).getD netloc

/-- `urlparse().port` rendered as Python's `f"{port}"`: `None` when there
is no (or an empty) port part; otherwise `int(port, 10)` printed back
(digits-only model of `int`), raising `ValueError` for a non-numeric or
out-of-range port exactly as the `port` property does. -/
def urlPortString (hostport : String) : Except Unit String :=
  let rest := pyDrop hostport ((pyTakeWhile (fun c => c != ':') hostport).length)
  if rest.length = 0 then .ok "None"
  else
    let p := pyDrop rest 1
    if p.length = 0 then .ok "None"
    else
      match pyToNat? p with
      | some n => if n ≤ 65535 then .ok (toString n) else .error ()
      | none => .error ()

/-- `urlparse().hostname` rendered as Python's `f"{hostname}"`: the
host part before the first `:`, lowercased; `None` when empty. -/
def urlHostnameString (hostport : String) : String :=
  let host := pyLower (pyTakeWhile (fun c => c != ':') hostport)
  if host.length = 0 then "None" else host

/-- The control endpoint computed in `WemoDevice.__init__`:
`f"{scheme}://{hostname}:{port}/upnp/control/basicevent1"` from
`urlparse(yuri)`; accessing `.port` raises for an invalid port. -/
def controlUriOf (yuri : String) : Except Unit String :=
  let sr := urlSchemeSplit yuri
  let hostport := hostportOf (urlNetlocOf sr.2)
  match urlPortString hostport with
  | .error e => .error e
  | .ok port =>
      .ok (sr.1 ++ "://" ++ urlHostnameString hostport ++ ":" ++ port ++ "/" ++ CONTROL_URI_PATH)

/-- `_get_device_xml`: build a GET `Request` for the uri (raising
`ValueError` when the uri has no type, e.g. the empty string), perform it
(an `urlopen` failure propagates), and `_parse_xml` the body. -/
def _get_device_xml (uri : String) (fetch : HttpResult) : Except Unit (Option XmlElem) :=
  if (pySplitType uri).isNone then .error ()
  else
    match fetch with
    | .failure => .error ()
    | .success raw => .ok (_parse_xml raw)

/-- The `_data` dict produced by `WemoDevice._load` from a parsed (or
unparseable) description document: when the root is `None` the dict
stays empty; otherwise each `device`-tagged child replaces the dict
(last one wins), defaulting to empty. -/
def loadData (root : Option XmlElem) : List (String × DevValue) :=
  match root with
  | none => []
  | some r =>
      r.children.foldl
        (fun acc node => if _tag node = DEVICE_NODE_TAG then _get_device_info node else acc)
        []

/-- `WemoDevice` instance state after `__init__`. -/
structure WemoDevice where
  address : String
  uri : String
  debug : Bool
  data : List (String × DevValue)
  control_uri : String
deriving DecidableEq

/-- `WemoDevice.__init__`: store address/uri/debug, derive the control
endpoint from `urlparse(yuri)` (which can raise on an invalid port), then
`_load` the description from `yuri` given the fetch outcome.  Only a
parse failure of a successfully fetched body is swallowed (empty `_data`);
a `Request` `ValueError` or an `urlopen` failure propagates out of the
constructor. -/
def WemoDevice.make (addr : String) (yuri : String) (debug : Bool)
    (fetch : HttpResult) : Except Unit WemoDevice :=
  match controlUriOf yuri with
  | .error e => .error e
  | .ok ctrl =>
      match _get_device_xml yuri fetch with
      | .error e => .error e
      | .ok root => .ok ⟨addr, yuri, debug, loadData root, ctrl⟩

/-- `WemoDevice.name`: `self._data.get("friendlyName", "Unknown Device")`.
The result is an optional string because a present `friendlyName` element
without text is Python `None`.  (The `svcs` branch is unreachable for
dicts built by `_get_device_info`, which stores service lists only under
`services`.) -/
def WemoDevice.name (d : WemoDevice) : Option String :=
  match dictGet? d.data DATA_DICT_NAME_KEY with
  | none => some DEVICE_UNKNOWN
  | some (.txt t) => t
  | some (.svcs _) => none

/-- `WemoDevice.state`: issue the GetBinaryState SOAP request; any
exception is swallowed (`zstate = None`); text `"1"` maps to `ON`, `"0"`
to `OFF`, anything else (or no text) to `UNKNOWN`.  Returns the state
string, the (unchanged) instance, and the HTTP requests performed. -/
def WemoDevice.state (d : WemoDevice) (wire : HttpResult) :
    String × WemoDevice × List SoapReq :=
  let z := _get_device_state d.control_uri wire
  let zstate : Option String :=
    match z.1 with
    | .error _ => none
    | .ok t => t
  (match zstate with
   | some s => if s = "1" then STATE_ON else if s = "0" then STATE_OFF else STATE_UNKNOWN
   | none => STATE_UNKNOWN,
   d, z.2)

/-- `WemoDevice.on`: `_set_device_state(self._control_uri, 1, ...)`, whose
result (the raw response text, or an uncaught exception) is returned
as-is; the logging calls have no semantic effect.  Returns the result,
the (unchanged) instance, and the HTTP requests performed. -/
def WemoDevice.on (d : WemoDevice) (wire : HttpResult) :
    Except Unit (Option String) × WemoDevice × List SoapReq :=
  let z := _set_device_state d.control_uri true wire
  (z.1, d, z.2)

/-- `WemoDevice.off`: `_set_device_state(self._control_uri, 0, ...)`,
returned as-is like `on`. -/
def WemoDevice.off (d : WemoDevice) (wire : HttpResult) :
    Except Unit (Option String) × WemoDevice × List SoapReq :=
  let z := _set_device_state d.control_uri false wire
  (z.1, d, z.2)

end Wemo

namespace Discover

/-- One discovery record as built in `discover`:
`{"host": addr[0], "uri": location}`. -/
structure DiscRecord where
  host : String
  uri : String
deriving DecidableEq

/-- One event delivered by `sock.recvfrom` in the receive loop: a
datagram (source host and utf-8 decoded payload), a `socket.timeout`
(caught by the loop), or any other socket-level error (uncaught). -/
inductive RecvEvent where
  | datagram (host : String) (data : String)
  | timeout
  | sockError

/-- `re.match(r'(?i)Location:\s*', line)`: anchored, case-insensitive
match of the 9-character header name plus greedy trailing whitespace;
returns `matcher.end()` when the line matches. -/
def locationMatchEnd (line : String) : Option Nat :=
  if pyStartsWith (pyLower line) "location:" then
    some (9 + (pyTakeWhile pyIsSpace (pyDrop line 9)).length)
  else
    none

/-- The `location` variable after the per-datagram line loop: starts
empty, and every line matching the Location pattern overwrites it with
the stripped remainder of that line (so the last match wins). -/
def datagramLocation (data : String) : String :=
  (pySplit data "\r\n").foldl
    (fun loc aline =>
      match locationMatchEnd aline with
      | some e => pyStrip (pyDrop aline e)
      | none => loc)
    ""

/-- The record `{"host": addr[0], "uri": location}` appended for one
datagram. -/
def mkRecord (host : String) (data : String) : DiscRecord :=
  ⟨host, datagramLocation data⟩

/-- The stripped values of all Location-matching lines of a datagram, in
order (observation used to state which match the code keeps). -/
def locValues (data : String) : List String :=
  (pySplit data "\r\n").filterMap
    (fun aline => (locationMatchEnd aline).map (fun e => pyStrip (pyDrop aline e)))

/-- The `while DOOMSDAY` receive loop of `discover`: each datagram
appends one record; a `socket.timeout` ends the loop and the collected
records are returned; any other socket error propagates
(`.error`).  `none` models divergence (the loop only exits by
exception, so an event stream with no terminator never returns). -/
def discoverLoop : List RecvEvent → List DiscRecord → Option (Except Unit (List DiscRecord))
  | [], _ => none
  | .timeout :: _, devices => some (.ok devices)
  | .sockError :: _, _ => some (.error ())
  | .datagram host data :: rest, devices => discoverLoop rest (devices ++ [mkRecord host data])

/-- `discover`: send one M-SEARCH datagram, then run the receive loop
with an empty record list. -/
def discover (events : List RecvEvent) : Option (Except Unit (List DiscRecord)) :=
  discoverLoop events []

end Discover

namespace Cli

open Discover Wemo

def ALEXA_IP : String := "192.168.1.173"
def ALEXA : String := "Alexa"

/-- `_tag` (cli.py): lowercase the device name and replace spaces with
hyphens. -/
def _tag (name : String) : String :=
  pyReplaceChar (pyLower name) ' ' '-'

/-- `_get_device_name`: the device's `name()`, with the sentinel
"Unknown Device" replaced by "Alexa" for the fixed Alexa address; a
Python `None` name stays `None`. -/
def _get_device_name (device : WemoDevice) : Option String :=
  match device.name with
  | some n => if n = DEVICE_UNKNOWN ∧ device.address = ALEXA_IP then some ALEXA else some n
  | none => none

/-- The external world of the cli: the records each successive discovery
scan would produce, and the description-fetch outcome per uri (fixed for
the duration of one cli invocation). -/
structure World where
  scanOut : Nat → List DiscRecord
  fetch : String → HttpResult

/-- The registry file plus a count of discovery scans performed:
`registry = none` models a missing `config/registry.json`. -/
structure RegState where
  registry : Option (List DiscRecord)
  scans : Nat
deriving DecidableEq

/-- `_update_registry`: run `discover` and write its result (the JSON
round trip through `json.dumps`/`json.loads` is the identity on these
records) over the registry file. -/
def _update_registry (w : World) (s : RegState) : RegState :=
  ⟨some (w.scanOut s.scans), s.scans + 1⟩

/-- `_load_registry`: when the registry file is missing, first run
`_update_registry` (a scan inside the load); then read the file back. -/
def _load_registry (w : World) (s : RegState) : List DiscRecord × RegState :=
  match s.registry with
  | some recs => (recs, s)
  | none => (w.scanOut s.scans, _update_registry w s)

/-- One iteration of the `_load_registered_devices` loop for a record:
construct `WemoDevice(address, yuri)` (its exceptions propagate), resolve
the display name (`_tag(None)` raises `AttributeError`), and produce the
`(tag, device)` binding. -/
def mkPair (w : World) (r : DiscRecord) : Except Unit (String × WemoDevice) :=
  match WemoDevice.make r.host r.uri false (w.fetch r.uri) with
  | .error e => .error e
  | .ok wemo =>
      match _get_device_name wemo with
      | none => .error ()
      | some nm => .ok (_tag nm, wemo)

/-- The device-building loop of `_load_registered_devices`: fold the
records into the `devices` dict; any exception aborts the whole load. -/
def buildDevices (w : World) :
    List DiscRecord → List (String × WemoDevice) → Except Unit (List (String × WemoDevice))
  | [], devices => .ok devices
  | r :: rest, devices =>
      match mkPair w r with
      | .error e => .error e
      | .ok p => buildDevices w rest (dictSet devices p.1 p.2)

/-- `_load_registered_devices`: read the registry (possibly scanning if
the file is missing) and build the tag-to-device dict. -/
def _load_registered_devices (w : World) (s : RegState) :
    Except Unit (List (String × WemoDevice)) × RegState :=
  let z := _load_registry w s
  (buildDevices w z.1 [], z.2)

/-- `_get_registered_devices`: try the load; on any exception print an
error, `_update_registry()`, and retry the load once outside the
try block, so a second failure propagates to the caller. -/
def _get_registered_devices (w : World) (s : RegState) :
    Except Unit (List (String × WemoDevice)) × RegState :=
  match _load_registered_devices w s with
  | (.ok devices, s') => (.ok devices, s')
  | (.error _, s') =>
      let s'' := _update_registry w s'
      _load_registered_devices w s''

end Cli

/-! ## Helper lemmas -/

theorem char_toNat_ofNat_valid (n : Nat) (h : n.isValidChar) : (Char.ofNat n).toNat = n := by
  simp [Char.ofNat, h, Char.toNat, Char.ofNatAux]
  rfl

theorem pyLowerChar_idem (c : Char) : pyLowerChar (pyLowerChar c) = pyLowerChar c := by
  unfold pyLowerChar
  by_cases h : 65 ≤ c.toNat ∧ c.toNat ≤ 90
  · have hv : (c.toNat + 32).isValidChar := by
      left
      omega
    have ht : (Char.ofNat (c.toNat + 32)).toNat = c.toNat + 32 :=
      char_toNat_ofNat_valid _ hv
    rw [if_pos h, if_neg]
    rw [ht]
    omega
  · rw [if_neg h, if_neg h]

theorem tag_char_idem (c : Char) :
    (if pyLowerChar (if pyLowerChar c = ' ' then '-' else pyLowerChar c) = ' ' then '-'
     else pyLowerChar (if pyLowerChar c = ' ' then '-' else pyLowerChar c))
      = (if pyLowerChar c = ' ' then '-' else pyLowerChar c) := by
  by_cases h : pyLowerChar c = ' '
  · have hd : pyLowerChar '-' = '-' := by decide
    simp [h, hd]
  · simp [h, pyLowerChar_idem c]

/-- A `foldl` that overwrites an accumulator with each produced value
computes the last produced value (or the initial one when none is
produced). -/
theorem foldl_overwrite_eq_getLast {α β : Type} (f : α → Option β) (l : List α) (init : β) :
    l.foldl (fun acc a => (f a).getD acc) init
      = ((l.filterMap f).getLast?).getD init := by
  induction l generalizing init with
  | nil => rfl
  | cons a l ih =>
      rw [List.foldl_cons, List.filterMap_cons]
      cases h : f a with
      | none => exact ih init
      | some v =>
          refine (ih v).trans ?_
          cases hl : l.filterMap f with
          | nil =>
              show ((([] : List β)).getLast?).getD v = (([v]).getLast?).getD init
              rfl
          | cons x xs =>
              show ((x :: xs).getLast?).getD v = ((v :: x :: xs).getLast?).getD init
              rw [List.getLast?_cons_cons]
              cases hg : (x :: xs).getLast? with
              | none => exact absurd (List.getLast?_eq_none_iff.mp hg) (by simp)
              | some b => rfl

open Discover in
/-- Running the receive loop on a block of datagrams appends one record
per datagram to the accumulator. -/
theorem discoverLoop_datagrams (ds : List (String × String)) (rest : List RecvEvent)
    (acc : List DiscRecord) :
    discoverLoop ((ds.map fun p => RecvEvent.datagram p.1 p.2) ++ rest) acc
      = discoverLoop rest (acc ++ (ds.map fun p => mkRecord p.1 p.2)) := by
  induction ds generalizing acc with
  | nil => simp
  | cons d ds ih =>
      rw [List.map_cons, List.cons_append]
      have hstep : discoverLoop
            (RecvEvent.datagram d.1 d.2 :: ((ds.map fun p => RecvEvent.datagram p.1 p.2) ++ rest)) acc
          = discoverLoop ((ds.map fun p => RecvEvent.datagram p.1 p.2) ++ rest)
              (acc ++ [mkRecord d.1 d.2]) := rfl
      rw [hstep, ih]
      simp

open Wemo in
theorem dictGet?_dictSet {α : Type} (l : List (String × α)) (k : String) (v : α) (t : String) :
    dictGet? (dictSet l k v) t = if k = t then some v else dictGet? l t := by
  induction l with
  | nil =>
      by_cases h : k = t <;> simp [dictSet, dictGet?, h]
  | cons p l ih =>
      obtain ⟨k', v'⟩ := p
      by_cases hk : k' = k
      · subst hk
        by_cases ht : k' = t <;> simp [dictSet, dictGet?, ht]
      · by_cases ht : k' = t
        · have hkt : ¬ k = t := fun he => hk (by rw [he, ht])
          have htk : ¬ t = k := fun he => hkt he.symm
          simp [dictSet, dictGet?, hk, ht, hkt, htk]
        · simp [dictSet, dictGet?, hk, ht, ih]

open Wemo in
/-- Looking up a key in a dict built by repeated `dictSet` over a pair
list finds the value of the last pair carrying that key (Python dict
overwrite semantics), falling back to the initial dict. -/
theorem dictGet?_foldl_set {α : Type} (ps : List (String × α)) (acc : List (String × α))
    (t : String) :
    dictGet? (ps.foldl (fun a p => dictSet a p.1 p.2) acc) t
      = match ps.reverse.find? (fun p => p.1 == t) with
        | some p => some p.2
        | none => dictGet? acc t := by
  induction ps generalizing acc with
  | nil => rfl
  | cons p ps ih =>
      rw [List.foldl_cons, ih, List.reverse_cons, List.find?_append]
      cases hf : ps.reverse.find? (fun q => q.1 == t) with
      | some x => rfl
      | none =>
          by_cases hpt : p.1 = t
          · simp [List.find?, hpt, dictGet?_dictSet]
          · have : (p.1 == t) = false := beq_false_of_ne hpt
            simp [List.find?, this, dictGet?_dictSet, hpt]

namespace Cli

open Discover Wemo

/-- The per-record results of the `_load_registered_devices` loop in
iteration order, before the dict accumulation (used to state the
round-trip and name-collision claims). -/
def mapPairs (w : World) : List DiscRecord → Except Unit (List (String × WemoDevice))
  | [] => .ok []
  | r :: rest =>
      match mkPair w r with
      | .error e => .error e
      | .ok p =>
          match mapPairs w rest with
          | .error e => .error e
          | .ok ps => .ok (p :: ps)

set_option maxHeartbeats 1600000 in
/-- The device loop equals the pair list folded into the dict (with
errors propagated identically). -/
theorem buildDevices_mapPairs (w : World) (recs : List DiscRecord)
    (acc : List (String × WemoDevice)) :
    buildDevices w recs acc
      = (mapPairs w recs).map (fun ps => ps.foldl (fun a p => dictSet a p.1 p.2) acc) := by
  induction recs generalizing acc with
  | nil => rfl
  | cons r rest ih =>
      unfold buildDevices mapPairs
      cases mkPair w r with
      | error e => rfl
      | ok p =>
          refine (ih (dictSet acc p.1 p.2)).trans ?_
          cases mapPairs w rest with
          | error e => rfl
          | ok ps' => rfl

/-- When every record builds a pair, the device loop folds those pairs
into the dict in order. -/
theorem buildDevices_eq_mapPairs (w : World) (recs : List DiscRecord)
    (ps : List (String × WemoDevice)) (h : mapPairs w recs = .ok ps)
    (acc : List (String × WemoDevice)) :
    buildDevices w recs acc = .ok (ps.foldl (fun a p => dictSet a p.1 p.2) acc) := by
  rw [buildDevices_mapPairs, h]
  rfl

/-- A successfully constructed device stores the record's address and
uri verbatim. -/
theorem make_fields (addr yuri : String) (dbg : Bool) (f : HttpResult) (dev : WemoDevice)
    (h : WemoDevice.make addr yuri dbg f = .ok dev) : dev.address = addr ∧ dev.uri = yuri := by
  unfold WemoDevice.make at h
  cases hc : controlUriOf yuri with
  | error e => rw [hc] at h; exact Except.noConfusion h
  | ok c =>
      rw [hc] at h
      cases hx : _get_device_xml yuri f with
      | error e => rw [hx] at h; exact Except.noConfusion h
      | ok root =>
          rw [hx] at h
          injection h with h1
          rw [← h1]
          exact ⟨rfl, rfl⟩

/-- A successfully built pair's device stores the record's address and
uri verbatim. -/
theorem mkPair_fields (w : World) (r : DiscRecord) (p : String × WemoDevice)
    (h : mkPair w r = .ok p) : p.2.address = r.host ∧ p.2.uri = r.uri := by
  unfold mkPair at h
  cases hm : WemoDevice.make r.host r.uri false (w.fetch r.uri) with
  | error e => rw [hm] at h; exact Except.noConfusion h
  | ok wemo =>
      rw [hm] at h
      have h2 : (match _get_device_name wemo with
                 | none => (Except.error () : Except Unit (String × WemoDevice))
                 | some nm => .ok (_tag nm, wemo)) = .ok p := h
      cases hn : _get_device_name wemo with
      | none => rw [hn] at h2; exact Except.noConfusion h2
      | some nm =>
          rw [hn] at h2
          injection h2 with h1
          rw [← h1]
          exact make_fields _ _ _ _ _ hm

/-- The pairs of a successful load carry exactly the persisted
addresses and uris, in order. -/
theorem mapPairs_fields (w : World) (recs : List DiscRecord)
    (ps : List (String × WemoDevice)) (h : mapPairs w recs = .ok ps) :
    ps.map (fun p => (p.2.address, p.2.uri)) = recs.map (fun r => (r.host, r.uri)) := by
  induction recs generalizing ps with
  | nil =>
      injection h with h1
      rw [← h1]
      rfl
  | cons r rest ih =>
      have h1 : (match mkPair w r with
                 | .error e => (Except.error e : Except Unit (List (String × WemoDevice)))
                 | .ok p =>
                     match mapPairs w rest with
                     | .error e => .error e
                     | .ok ps2 => .ok (p :: ps2)) = .ok ps := h
      cases hm : mkPair w r with
      | error e => rw [hm] at h1; exact Except.noConfusion h1
      | ok p =>
          rw [hm] at h1
          have h2 : (match mapPairs w rest with
                     | .error e => (Except.error e : Except Unit (List (String × WemoDevice)))
                     | .ok ps2 => .ok (p :: ps2)) = .ok ps := h1
          cases hm2 : mapPairs w rest with
          | error e => rw [hm2] at h2; exact Except.noConfusion h2
          | ok ps' =>
              rw [hm2] at h2
              have h3 : Except.ok (p :: ps') = Except.ok ps := h2
              injection h3 with h4
              rw [← h4, List.map_cons, List.map_cons]
              obtain ⟨ha, hu⟩ := mkPair_fields w r p hm
              rw [ha, hu, ih ps' hm2]

end Cli

/-! ## Concrete sample inputs -/

namespace Wemo

/-- A sample device handle (fields as `__init__` would store them for a
typical description uri). -/
def sampleDevice : WemoDevice :=
  ⟨"192.168.1.5", "http://192.168.1.5:49153/setup.xml", false, [],
   "http://192.168.1.5:49153/upnp/control/basicevent1"⟩

/-- A well-formed SOAP envelope whose
`Body/GetBinaryStateResponse/BinaryState` element carries text `t`. -/
def getStateRoot (t : Option String) : XmlElem :=
  .node "Envelope" none
    [.node RESPONSE_BODY_PATH none
      [.node WEMO_GET_STATE_PATH none
        [.node "BinaryState" t []]]]

/-- A well-formed SOAP envelope whose
`Body/SetBinaryStateResponse/BinaryState` element carries text `t`. -/
def setStateRoot (t : Option String) : XmlElem :=
  .node "Envelope" none
    [.node RESPONSE_BODY_PATH none
      [.node WEMO_SET_STATE_PATH none
        [.node "BinaryState" t []]]]

/-- A well-formed XML document with no SOAP body at all (the expected
elements are missing). -/
def emptyEnvelope : XmlElem := .node "Envelope" none []

/-- Observation on a SOAP exchange outcome: the text of the
`Body/GetBinaryStateResponse/BinaryState` element of the response, when
the exchange succeeded, the body parsed, the element exists and it has
text — `none` otherwise.  This is the value `state()`'s mapping is
specified against. -/
def stateBinaryText (w : HttpResult) : Option String :=
  match w with
  | .failure => none
  | .success raw =>
      match _parse_xml raw with
      | none => none
      | some root => (root.find GET_STATE_XPATH).bind XmlElem.text

/-- `state()`'s result is the `"1"`/`"0"`/other mapping of the observed
`BinaryState` text. -/
theorem state_val (d : WemoDevice) (w : HttpResult) :
    (d.state w).1
      = match stateBinaryText w with
        | some s => if s = "1" then STATE_ON else if s = "0" then STATE_OFF else STATE_UNKNOWN
        | none => STATE_UNKNOWN := by
  cases w with
  | failure => rfl
  | success raw =>
      cases raw with
      | malformed => rfl
      | wellFormed root => rfl

end Wemo

/-! ## Claims -/

open Wemo

/-- C3: `state()` returns ON iff the SOAP GetBinaryStateResponse
BinaryState text is exactly "1", OFF iff exactly "0", and UNKNOWN in
every other case (other text, missing element, network error — the
exchange outcome `HttpResult.failure` — or malformed XML); totality of
`WemoDevice.state` models that the method never raises (it catches all
exceptions). -/
theorem c3_state_mapping (d : WemoDevice) (w : HttpResult) :
    ((d.state w).1 = STATE_ON ↔ stateBinaryText w = some "1")
  ∧ ((d.state w).1 = STATE_OFF ↔ stateBinaryText w = some "0")
  ∧ (stateBinaryText w ≠ some "1" → stateBinaryText w ≠ some "0" →
      (d.state w).1 = STATE_UNKNOWN) := by
  have hv := state_val d w
  cases hs : stateBinaryText w with
  | none =>
      rw [hs] at hv
      have hv2 : (d.state w).1 = STATE_UNKNOWN := hv
      rw [hv2]
      refine ⟨by decide, by decide, fun h1 h0 => rfl⟩
  | some s =>
      rw [hs] at hv
      have hv2 : (d.state w).1
          = if s = "1" then STATE_ON else if s = "0" then STATE_OFF else STATE_UNKNOWN := hv
      by_cases h1 : s = "1"
      · subst h1
        rw [hv2, if_pos rfl]
        refine ⟨by decide, by decide, fun hne _ => absurd rfl hne⟩
      · by_cases h0 : s = "0"
        · subst h0
          rw [hv2, if_neg h1, if_pos rfl]
          refine ⟨by decide, by decide, fun _ hne => absurd rfl hne⟩
        · rw [hv2, if_neg h1, if_neg h0]
          have e1 : ¬ (some s = some "1") := fun he => h1 (Option.some.inj he)
          have e0 : ¬ (some s = some "0") := fun he => h0 (Option.some.inj he)
          exact ⟨⟨fun h => absurd h (by decide), fun h => absurd h e1⟩,
                 ⟨fun h => absurd h (by decide), fun h => absurd h e0⟩,
                 fun _ _ => rfl⟩

/-- C3 witness: at the concrete response text "7", neither "1" nor "0",
`state()` returns UNKNOWN. -/
theorem c3_state_mapping_witness :
    (sampleDevice.state (.success (.wellFormed (getStateRoot (some "7"))))).1
      = STATE_UNKNOWN :=
  (c3_state_mapping sampleDevice (.success (.wellFormed (getStateRoot (some "7"))))).2.2
    (by decide) (by decide)

/-- C8: each call to `state()`, `on()` or `off()` performs exactly one
HTTP request and leaves the handle unchanged (all fields: address, uri,
debug flag, descriptor data, control endpoint). -/
theorem c8_single_request_no_mutation (d : WemoDevice) (w : HttpResult) :
    (d.state w).2.1 = d ∧ ((d.state w).2.2).length = 1
  ∧ (d.on w).2.1 = d ∧ ((d.on w).2.2).length = 1
  ∧ (d.off w).2.1 = d ∧ ((d.off w).2.2).length = 1 :=
  ⟨rfl, rfl, rfl, rfl, rfl, rfl⟩

/-- Counterexample to C1: on a well-formed SetBinaryStateResponse echoing
"1", `on()` returns the raw text "1", not the mapped state `ON` (and in
general applies no ON/OFF/UNKNOWN mapping, unlike `state()`). -/
theorem c1_counterexample :
    (sampleDevice.on (.success (.wellFormed (setStateRoot (some "1"))))).1
        = .ok (some "1")
  ∧ ("1" : String) ≠ STATE_ON :=
  ⟨rfl, by decide⟩

set_option maxRecDepth 8000 in
/-- C1 (amended): `on()`/`off()` send a SetBinaryState request whose body
substitutes `1`/`0` into the `BinaryState` element, but return the raw
response text unmapped: an echoed text `t` is returned as `t`, a
malformed response body or missing `BinaryState` element yields `None`,
and a network error propagates as an exception instead of yielding
UNKNOWN. -/
theorem c1_set_state_raw (d : WemoDevice) (t : String) (w : HttpResult) :
    (d.on (.success (.wellFormed (setStateRoot (some t))))).1 = .ok (some t)
  ∧ (d.off (.success (.wellFormed (setStateRoot (some t))))).1 = .ok (some t)
  ∧ (d.on .failure).1 = .error ()
  ∧ (d.off .failure).1 = .error ()
  ∧ (d.on (.success .malformed)).1 = .ok none
  ∧ (d.on (.success (.wellFormed emptyEnvelope))).1 = .ok none
  ∧ (d.on w).2.2
      = [⟨d.control_uri, ACTION_SET,
          safeSubstitute SET_BINARY_STATE_SOAP_REQUEST_TEMPLATE "1"⟩]
  ∧ (d.off w).2.2
      = [⟨d.control_uri, ACTION_SET,
          safeSubstitute SET_BINARY_STATE_SOAP_REQUEST_TEMPLATE "0"⟩]
  ∧ "<BinaryState>1</BinaryState>".data
      <:+: (safeSubstitute SET_BINARY_STATE_SOAP_REQUEST_TEMPLATE "1").data
  ∧ "<BinaryState>0</BinaryState>".data
      <:+: (safeSubstitute SET_BINARY_STATE_SOAP_REQUEST_TEMPLATE "0").data :=
  ⟨rfl, rfl, rfl, rfl, rfl, rfl, rfl, rfl, by decide, by decide⟩

/-- Counterexample to C2: construction does raise — both when the
description fetch fails at the network level (urlopen raising out of the
uncaught `_load` path) and when the uri is empty (`request.Request`
raises `ValueError: unknown url type` before any fetch). -/
theorem c2_counterexample :
    WemoDevice.make "192.168.1.5" "http://192.168.1.5:49153/setup.xml" false .failure
        = .error ()
  ∧ WemoDevice.make "192.168.1.5" "" false (.success (.wellFormed emptyEnvelope))
        = .error () :=
  ⟨rfl, rfl⟩

/-- C2 (amended): construction fails softly only when the fetch succeeds
but the body is unparseable XML — then the handle is built with an empty
descriptor and `name()` falls back to "Unknown Device"; a network-level
fetch failure raises out of the constructor, and so does a uri without a
URL type (such as the empty string), whatever the fetch outcome. -/
theorem c2_soft_fail_only_parse (addr yuri : String) (dbg : Bool) (ctrl : String)
    (hc : controlUriOf yuri = .ok ctrl) (hs : (pySplitType yuri).isSome = true) :
    WemoDevice.make addr yuri dbg (.success .malformed) = .ok ⟨addr, yuri, dbg, [], ctrl⟩
  ∧ WemoDevice.name ⟨addr, yuri, dbg, [], ctrl⟩ = some DEVICE_UNKNOWN
  ∧ WemoDevice.make addr yuri dbg .failure = .error ()
  ∧ (∀ u : String, (pySplitType u).isNone = true → ∀ f : HttpResult,
      WemoDevice.make addr u dbg f = .error ()) := by
  have hsn : ¬ (pySplitType yuri).isNone = true := by
    cases hx : pySplitType yuri with
    | none => rw [hx] at hs; exact absurd hs (by decide)
    | some p => simp
  refine ⟨?_, rfl, ?_, ?_⟩
  · unfold WemoDevice.make
    rw [hc]
    unfold _get_device_xml
    rw [if_neg hsn]
    rfl
  · unfold WemoDevice.make
    rw [hc]
    unfold _get_device_xml
    rw [if_neg hsn]
  · intro u hu f
    unfold WemoDevice.make
    cases hcu : controlUriOf u with
    | error e => rfl
    | ok c =>
        unfold _get_device_xml
        rw [if_pos hu]

/-- C2 witness: at a concrete well-formed uri, construction over a
malformed body succeeds with the default descriptor and Unknown Device
name, while a fetch failure raises. -/
theorem c2_soft_fail_only_parse_witness :
    controlUriOf "http://192.168.1.5:49153/setup.xml"
        = .ok "http://192.168.1.5:49153/upnp/control/basicevent1"
  ∧ (pySplitType "http://192.168.1.5:49153/setup.xml").isSome = true
  ∧ WemoDevice.make "192.168.1.5" "http://192.168.1.5:49153/setup.xml" false
        (.success .malformed)
      = .ok ⟨"192.168.1.5", "http://192.168.1.5:49153/setup.xml", false, [],
             "http://192.168.1.5:49153/upnp/control/basicevent1"⟩ :=
  ⟨rfl, rfl,
   (c2_soft_fail_only_parse "192.168.1.5" "http://192.168.1.5:49153/setup.xml" false
      "http://192.168.1.5:49153/upnp/control/basicevent1" rfl rfl).1⟩

/-- The per-datagram location scan keeps the value of the last matching
line (or the empty string when none matches). -/
theorem datagramLocation_eq_last (data : String) :
    Discover.datagramLocation data = ((Discover.locValues data).getLast?).getD "" := by
  unfold Discover.datagramLocation Discover.locValues
  have hf : (fun (loc : String) (aline : String) =>
        match Discover.locationMatchEnd aline with
        | some e => pyStrip (pyDrop aline e)
        | none => loc)
      = fun (acc : String) (aline : String) =>
          ((Discover.locationMatchEnd aline).map (fun e => pyStrip (pyDrop aline e))).getD acc := by
    funext loc aline
    cases Discover.locationMatchEnd aline with
    | none => rfl
    | some e => rfl
  rw [hf]
  exact foldl_overwrite_eq_getLast
    (fun aline => (Discover.locationMatchEnd aline).map (fun e => pyStrip (pyDrop aline e)))
    (pySplit data "\r\n") ""

/-- Counterexample to C4: a datagram with two Location headers produces
the value of the LAST matching line, not the first. -/
theorem c4_counterexample :
    Discover.discover
        [Discover.RecvEvent.datagram "192.168.1.9"
           "HTTP/1.1 200 OK\r\nLOCATION: http://a\r\nlocation: http://b\r\n\r\n",
         Discover.RecvEvent.timeout]
      = some (.ok [⟨"192.168.1.9", "http://b"⟩])
  ∧ ("http://b" : String) ≠ "http://a" :=
  ⟨rfl, by decide⟩

/-- C4 (amended): every received datagram yields exactly one record; its
uri is the trimmed value of the LAST line matching the Location header
case-insensitively (empty string when no line matches), and duplicate
datagrams yield duplicate records with no deduplication (the scan maps
over all received datagrams one-to-one). -/
theorem c4_one_record_last_location :
    (∀ host data : String,
        Discover.mkRecord host data = ⟨host, ((Discover.locValues data).getLast?).getD ""⟩)
  ∧ (∀ ds : List (String × String),
        Discover.discover ((ds.map fun p => Discover.RecvEvent.datagram p.1 p.2)
            ++ [Discover.RecvEvent.timeout])
          = some (.ok (ds.map fun p => Discover.mkRecord p.1 p.2))) := by
  constructor
  · intro host data
    unfold Discover.mkRecord
    rw [datagramLocation_eq_last]
  · intro ds
    unfold Discover.discover
    rw [discoverLoop_datagrams]
    rfl

/-- Counterexample to C6: a non-timeout socket error in the receive loop
is not caught (`except socket.timeout` only): the scan raises instead of
returning the records collected so far. -/
theorem c6_counterexample :
    Discover.discover [Discover.RecvEvent.sockError] = some (.error ())
  ∧ Discover.discover [Discover.RecvEvent.sockError]
      ≠ some (.ok ([] : List Discover.DiscRecord)) := by
  refine ⟨rfl, fun h => ?_⟩
  injection h with h1
  exact Except.noConfusion h1

/-- C6 (amended): a `socket.timeout` ends the scan and returns exactly
the records collected so far — in particular a scan with zero responding
devices returns the empty list, a valid output — but any other
socket-level error propagates as an exception out of `discover`. -/
theorem c6_timeout_ends_scan (ds : List (String × String)) :
    Discover.discover ((ds.map fun p => Discover.RecvEvent.datagram p.1 p.2)
        ++ [Discover.RecvEvent.timeout])
      = some (.ok (ds.map fun p => Discover.mkRecord p.1 p.2))
  ∧ Discover.discover ((ds.map fun p => Discover.RecvEvent.datagram p.1 p.2)
        ++ [Discover.RecvEvent.sockError])
      = some (.error ())
  ∧ Discover.discover [Discover.RecvEvent.timeout] = some (.ok []) := by
  refine ⟨?_, ?_, rfl⟩
  · unfold Discover.discover
    rw [discoverLoop_datagrams]
    rfl
  · unfold Discover.discover
    rw [discoverLoop_datagrams]
    rfl

namespace Cli

open Discover Wemo

/-- A world with no responding devices and failing description fetches. -/
def nullWorld : World := ⟨fun _ => [], fun _ => .failure⟩

/-- A world whose every scan finds one device that sent no Location
header, so its record has an empty uri. -/
def emptyUriWorld : World := ⟨fun _ => [⟨"192.168.1.9", ""⟩], fun _ => .failure⟩

/-- A description document whose `device` element carries the friendly
name `nm`. -/
def descXml (nm : String) : XmlElem :=
  .node "root" none [.node "device" none [.node "friendlyName" (some nm) []]]

/-- A world whose scan finds one device with a well-formed description. -/
def roundWorld : World :=
  ⟨fun _ => [⟨"192.168.1.5", "http://192.168.1.5:49153/setup.xml"⟩],
   fun _ => .success (.wellFormed (descXml "Living Room Plug"))⟩

/-- The records `roundWorld`'s scan produces. -/
def roundRecs : List DiscRecord := [⟨"192.168.1.5", "http://192.168.1.5:49153/setup.xml"⟩]

/-- The device `roundWorld`'s single record reconstructs. -/
def roundDev : WemoDevice :=
  ⟨"192.168.1.5", "http://192.168.1.5:49153/setup.xml", false,
   [(DATA_DICT_NAME_KEY, .txt (some "Living Room Plug"))],
   "http://192.168.1.5:49153/upnp/control/basicevent1"⟩

/-- Two records whose resolved display names normalize to the same tag. -/
def collideRecs : List DiscRecord :=
  [⟨"192.168.1.7", "http://192.168.1.7:49153/setup.xml"⟩,
   ⟨"192.168.1.8", "http://192.168.1.8:49153/setup.xml"⟩]

/-- A world where the two `collideRecs` devices report names that both
normalize to the tag `living-room`. -/
def collideWorld : World :=
  ⟨fun _ => collideRecs,
   fun u => if u = "http://192.168.1.7:49153/setup.xml"
            then .success (.wellFormed (descXml "Living Room"))
            else .success (.wellFormed (descXml "LIVING ROOM"))⟩

/-- The device reconstructed from the first colliding record. -/
def collideDev1 : WemoDevice :=
  ⟨"192.168.1.7", "http://192.168.1.7:49153/setup.xml", false,
   [(DATA_DICT_NAME_KEY, .txt (some "Living Room"))],
   "http://192.168.1.7:49153/upnp/control/basicevent1"⟩

/-- The device reconstructed from the second (later) colliding record. -/
def collideDev2 : WemoDevice :=
  ⟨"192.168.1.8", "http://192.168.1.8:49153/setup.xml", false,
   [(DATA_DICT_NAME_KEY, .txt (some "LIVING ROOM"))],
   "http://192.168.1.8:49153/upnp/control/basicevent1"⟩

/-- The `(tag, device)` pairs the colliding load iterates, in order. -/
def collidePairs : List (String × WemoDevice) :=
  [("living-room", collideDev1), ("living-room", collideDev2)]

end Cli

/-- Counterexample to C5: a persisted record with an empty description
uri is not dropped on reload — reconstructing it raises
(`WemoDevice("...", "")` fails in `request.Request`), so the whole load
raises and produces no device map at all. -/
theorem c5_counterexample :
    (Cli._load_registered_devices Cli.emptyUriWorld ⟨some [⟨"192.168.1.9", ""⟩], 0⟩).1
        = .error ()
  ∧ (Except.error () : Except Unit (List (String × WemoDevice)))
      ≠ .ok [] :=
  ⟨rfl, fun h => Except.noConfusion h⟩

/-- C5 (amended): persisting a discovery result and reloading it feeds
back exactly the persisted records, and — when every record's device
reconstruction succeeds — builds one handle per record whose address and
description uri equal the persisted originals, in order.  Records with
an empty uri are not dropped: their reconstruction always raises
(aborting the whole load), since an empty uri has no URL type. -/
theorem c5_roundtrip (w : Cli.World) (s : Cli.RegState) (recs : List Discover.DiscRecord)
    (ps : List (String × WemoDevice))
    (hscan : w.scanOut s.scans = recs)
    (hmk : Cli.mapPairs w recs = .ok ps) :
    (Cli._load_registry w (Cli._update_registry w s)).1 = recs
  ∧ (Cli._load_registered_devices w (Cli._update_registry w s)).1
      = .ok (ps.foldl (fun a p => dictSet a p.1 p.2) [])
  ∧ ps.map (fun p => (p.2.address, p.2.uri)) = recs.map (fun r => (r.host, r.uri))
  ∧ (∀ host : String, ∀ dbg : Bool, ∀ f : HttpResult,
      WemoDevice.make host "" dbg f = .error ()) := by
  have hload : (Cli._load_registry w (Cli._update_registry w s)).1 = recs := by
    unfold Cli._update_registry Cli._load_registry
    exact hscan
  refine ⟨hload, ?_, Cli.mapPairs_fields w recs ps hmk, fun host dbg f => rfl⟩
  have hld : Cli._load_registered_devices w (Cli._update_registry w s)
      = (Cli.buildDevices w ((Cli._load_registry w (Cli._update_registry w s)).1) [],
         (Cli._load_registry w (Cli._update_registry w s)).2) := rfl
  rw [hld, hload]
  exact Cli.buildDevices_eq_mapPairs w recs ps hmk []

/-- C5 witness: the concrete one-record world round-trips: persisting
then loading reconstructs one handle with the original address and uri. -/
theorem c5_roundtrip_witness :
    Cli.roundWorld.scanOut 0 = Cli.roundRecs
  ∧ Cli.mapPairs Cli.roundWorld Cli.roundRecs
      = .ok [("living-room-plug", Cli.roundDev)]
  ∧ (Cli._load_registered_devices Cli.roundWorld
        (Cli._update_registry Cli.roundWorld ⟨none, 0⟩)).1
      = .ok [("living-room-plug", Cli.roundDev)]
  ∧ [("living-room-plug", Cli.roundDev)].map (fun p => (p.2.address, p.2.uri))
      = Cli.roundRecs.map (fun r => (r.host, r.uri)) := by
  have h := c5_roundtrip Cli.roundWorld ⟨none, 0⟩ Cli.roundRecs
    [("living-room-plug", Cli.roundDev)] rfl rfl
  exact ⟨rfl, rfl, h.2.1, h.2.2.1⟩

/-- Counterexample to C7: with the registry file missing and a scan that
finds one Location-less device, `_get_registered_devices` performs TWO
discovery scans (one inside `_load_registry` because the file is absent,
one in the recovery path), not exactly one, before surfacing failure. -/
theorem c7_counterexample :
    Cli._get_registered_devices Cli.emptyUriWorld ⟨none, 0⟩
        = (.error (), ⟨some [⟨"192.168.1.9", ""⟩], 2⟩)
  ∧ (Cli._get_registered_devices Cli.emptyUriWorld ⟨none, 0⟩).2.scans ≠ 1 :=
  ⟨rfl, by decide⟩

/-- C7 (amended): when the registry file EXISTS, a failed load triggers
exactly one fresh scan and exactly one retry, and the retry's outcome —
success or failure — is surfaced unchanged to the caller (one scan total:
final scan count is the initial one plus one); a successful first load
triggers no scan at all.  (When the file is missing, the first load
itself scans before reading, so a subsequent failure leads to a second
scan — see the counterexample.) -/
theorem c7_retry_once_store_present (w : Cli.World) (reg : Option (List Discover.DiscRecord))
    (k : Nat) (recs : List Discover.DiscRecord) (hreg : reg = some recs) :
    (∀ d, (Cli._load_registered_devices w ⟨reg, k⟩).1 = .ok d →
        Cli._get_registered_devices w ⟨reg, k⟩ = (.ok d, ⟨reg, k⟩))
  ∧ ((Cli._load_registered_devices w ⟨reg, k⟩).1 = .error () →
        Cli._get_registered_devices w ⟨reg, k⟩
            = Cli._load_registered_devices w (Cli._update_registry w ⟨reg, k⟩)
      ∧ (Cli._get_registered_devices w ⟨reg, k⟩).2.scans = k + 1) := by
  subst hreg
  have hload : Cli._load_registered_devices w ⟨some recs, k⟩
      = (Cli.buildDevices w recs [], ⟨some recs, k⟩) := rfl
  cases hb : Cli.buildDevices w recs [] with
  | ok d0 =>
      have hget : Cli._get_registered_devices w ⟨some recs, k⟩
          = (.ok d0, ⟨some recs, k⟩) := by
        unfold Cli._get_registered_devices
        rw [hload, hb]
      constructor
      · intro d hd
        rw [hload] at hd
        have hd2 : Cli.buildDevices w recs [] = .ok d := hd
        rw [hb] at hd2
        injection hd2 with h1
        rw [hget, h1]
      · intro hd
        rw [hload] at hd
        have hd2 : Cli.buildDevices w recs [] = .error () := hd
        rw [hb] at hd2
        exact Except.noConfusion hd2
  | error e =>
      have hget : Cli._get_registered_devices w ⟨some recs, k⟩
          = Cli._load_registered_devices w (Cli._update_registry w ⟨some recs, k⟩) := by
        unfold Cli._get_registered_devices
        rw [hload, hb]
      constructor
      · intro d hd
        rw [hload] at hd
        have hd2 : Cli.buildDevices w recs [] = .ok d := hd
        rw [hb] at hd2
        exact Except.noConfusion hd2
      · intro _
        refine ⟨hget, ?_⟩
        rw [hget]
        rfl

/-- C7 witness: with an existing (empty) registry, a successful load
returns directly with no scan. -/
theorem c7_retry_once_store_present_witness :
    (some ([] : List Discover.DiscRecord) = some [])
  ∧ (Cli._load_registered_devices Cli.nullWorld ⟨some [], 5⟩).1 = .ok []
  ∧ Cli._get_registered_devices Cli.nullWorld ⟨some [], 5⟩ = (.ok [], ⟨some [], 5⟩) :=
  ⟨rfl, rfl,
   (c7_retry_once_store_present Cli.nullWorld (some []) 5 [] rfl).1 [] rfl⟩

/-- C9: when several reloaded records resolve to display names with the
same normalized tag, the device map retains only the device of the
LATEST such record: looking a tag up in the built map finds the value of
the last pair carrying it. -/
theorem c9_latest_tag_wins (w : Cli.World) (reg : Option (List Discover.DiscRecord))
    (k : Nat) (recs : List Discover.DiscRecord) (ps : List (String × WemoDevice))
    (t : String) (hreg : reg = some recs) (hmk : Cli.mapPairs w recs = .ok ps) :
    (Cli._load_registered_devices w ⟨reg, k⟩).1
        = .ok (ps.foldl (fun a p => dictSet a p.1 p.2) [])
  ∧ dictGet? (ps.foldl (fun a p => dictSet a p.1 p.2) []) t
      = (ps.reverse.find? (fun p => p.1 == t)).map (fun p => p.2) := by
  subst hreg
  constructor
  · have hload : Cli._load_registered_devices w ⟨some recs, k⟩
        = (Cli.buildDevices w recs [], ⟨some recs, k⟩) := rfl
    rw [hload]
    exact Cli.buildDevices_eq_mapPairs w recs ps hmk []
  · rw [dictGet?_foldl_set]
    cases ps.reverse.find? (fun p => p.1 == t) with
    | some x => rfl
    | none => rfl

/-- C9 witness: in the concrete colliding world, both records normalize
to `living-room` and the lookup returns the device of the second
(latest) record. -/
theorem c9_latest_tag_wins_witness :
    Cli.mapPairs Cli.collideWorld Cli.collideRecs = .ok Cli.collidePairs
  ∧ dictGet? (Cli.collidePairs.foldl (fun a p => dictSet a p.1 p.2) []) "living-room"
      = some Cli.collideDev2 := by
  refine ⟨rfl, ?_⟩
  have h := (c9_latest_tag_wins Cli.collideWorld (some Cli.collideRecs) 0
    Cli.collideRecs Cli.collidePairs "living-room" rfl rfl).2
  exact h.trans rfl

/-- C10: the cli name-to-tag normalization (lowercase, then spaces to
hyphens) is idempotent. -/
theorem c10_tag_idempotent (n : String) : Cli._tag (Cli._tag n) = Cli._tag n := by
  obtain ⟨l⟩ := n
  apply String.ext
  show ((((l.map pyLowerChar).map fun c => if c = ' ' then '-' else c).map
          pyLowerChar).map fun c => if c = ' ' then '-' else c)
      = (l.map pyLowerChar).map fun c => if c = ' ' then '-' else c
  induction l with
  | nil => rfl
  | cons c l ih =>
      simp only [List.map_cons, List.cons.injEq]
      exact ⟨tag_char_idem c, ih⟩

end HomeController
